import Mathlib

/-!
Shallow embedding of the ViaductCI worker's job-execution pipeline
(`execute_job` in `src/main.rs`) and proofs about its behaviour.

External effects (the `git clone` invocation, each `sh -c` command, and
filesystem reads for artifact collection) are modelled by an environment
`Env` of oracles; the two `Uuid::new_v4()` calls are modelled by the
`workDirToken` and `resultId` fields. Workspace creation and removal are
modelled as trace events: in the source both are followed by `.expect`,
which aborts the whole process on failure, so every non-aborting execution
performs them unconditionally.

Log strings reproduce the `format!` strings of the source (the `colored`
crate's styling is identity when output is not a terminal, so colour
escapes are omitted).
-/

namespace ViaductWorker

/-- Mirrors Rust struct `JobInput` (name/value pair; unused by `execute_job`). -/
structure JobInput where
  name : String
  value : String
deriving Repr, DecidableEq

/-- Mirrors Rust struct `JobOutput` (declared artifact name and workspace-relative path). -/
structure JobOutput where
  name : String
  path : String
deriving Repr, DecidableEq

/-- Mirrors Rust struct `Job`. -/
structure Job where
  name : String
  repository : String
  branch : String
  commands : List String
  inputs : List JobInput
  outputs : List JobOutput
deriving Repr, DecidableEq

/-- Mirrors Rust struct `JobArtifact`. -/
structure JobArtifact where
  name : String
  content : String
deriving Repr, DecidableEq

/-- Mirrors Rust struct `JobResult`. -/
structure JobResult where
  id : String
  status : String
  output : String
  artifacts : List JobArtifact
deriving Repr, DecidableEq

/-- Outcome of a successfully launched external process
(`std::process::Output`): exit-status success flag and captured streams,
already decoded as text (`String::from_utf8_lossy`). -/
structure ProcOutput where
  success : Bool
  stdout : String
  stderr : String
deriving Repr, DecidableEq

/-- Observable side effects of one job execution, in order. -/
inductive Event where
  | createDir : String → Event
  | cloneRepo : String → String → String → Event
  | runCmd : Nat → String → Event
  | readFile : String → Event
  | removeDir : String → Event
deriving Repr, DecidableEq

/-- Oracle for everything outside the orchestrator: the clone attempt
(`Err e` models `Command::output()` returning `Err`, `Ok` carries the
process outcome), the outcome of the i-th command of the job, text reads
from the filesystem keyed by the literal path string, and the two fresh
UUID draws. -/
structure Env where
  workDirToken : String
  resultId : String
  cloneResult : Except String ProcOutput
  cmdResult : Nat → Except String ProcOutput
  readFile : String → Except String String

/-- Rust: `let work_dir = format!("work_{}", Uuid::new_v4());`. -/
def workDirOf (env : Env) : String := "work_" ++ env.workDirToken

/-- Rust: `let path = format!("{}/{}", work_dir, output_spec.path);` —
plain string concatenation, no normalization. -/
def resolvePath (workDir p : String) : String := workDir ++ "/" ++ p

/-- Rust: `format!("{} Command: {}\n", "🖥️".blue(), cmd)`. -/
def cmdEchoLine (cmd : String) : String := "🖥️ Command: " ++ cmd ++ "\n"

/-- Rust: `format!("{} Error executing command: {}\n", "❌".red(), e)`. -/
def launchErrLine (e : String) : String := "❌ Error executing command: " ++ e ++ "\n"

/-- Rust: `format!("{} Failed to clone repository: {}", "❌".red(), stderr)`. -/
def cloneFailMsg (stderr : String) : String := "❌ Failed to clone repository: " ++ stderr

/-- Rust: `format!("{} Error cloning repository: {}", "❌".red(), e)`. -/
def cloneErrMsg (e : String) : String := "❌ Error cloning repository: " ++ e

/-- Rust: `format!("{} Error reading output {}: {}\n", "❌".red(), output_spec.name, e)`. -/
def readErrLine (name e : String) : String := "❌ Error reading output " ++ name ++ ": " ++ e ++ "\n"

/-- The command loop of `execute_job` (lines 87–116): commands run in
order; each launched command appends its echo line, stdout, then stderr;
a non-zero exit or a launch failure sets status `failed` and `break`s.
Returns (log contribution, success flag, trace). -/
def runCommands (env : Env) : List String → Nat → String × Bool × List Event
  | [], _ => ("", true, [])
  | cmd :: rest, i =>
    match env.cmdResult i with
    | Except.ok out =>
      if out.success then
        let r := runCommands env rest (i + 1)
        (cmdEchoLine cmd ++ out.stdout ++ out.stderr ++ r.1, r.2.1,
          Event.runCmd i cmd :: r.2.2)
      else
        (cmdEchoLine cmd ++ out.stdout ++ out.stderr, false, [Event.runCmd i cmd])
    | Except.error e => (launchErrLine e, false, [Event.runCmd i cmd])

/-- The artifact loop of `execute_job` (lines 120–135): each declared
output is read from `work_dir/path`; a successful read pushes an
artifact, a failed one appends an error line to the log. Returns
(artifacts, log contribution, trace). -/
def collectArtifacts (env : Env) (workDir : String) :
    List JobOutput → List JobArtifact × String × List Event
  | [] => ([], "", [])
  | spec :: rest =>
    let path := resolvePath workDir spec.path
    let r := collectArtifacts env workDir rest
    match env.readFile path with
    | Except.ok content =>
      ({ name := spec.name, content := content } :: r.1, r.2.1,
        Event.readFile path :: r.2.2)
    | Except.error e =>
      (r.1, readErrLine spec.name e ++ r.2.1, Event.readFile path :: r.2.2)

/-- `execute_job` (lines 56–156). Creates the workspace, clones, and —
only when the clone succeeded — runs the command loop and then the
artifact loop (the artifact loop is inside the clone-success block and
is not further guarded by the command status). The workspace is removed
unconditionally before the result is built. -/
def execute_job (env : Env) (job : Job) : JobResult × List Event :=
  let workDir := workDirOf env
  let startEvs : List Event :=
    [Event.createDir workDir, Event.cloneRepo job.repository job.branch workDir]
  match env.cloneResult with
  | Except.ok co =>
    if co.success then
      let run := runCommands env job.commands 0
      let coll := collectArtifacts env workDir job.outputs
      ({ id := env.resultId,
         status := if run.2.1 then "success" else "failed",
         output := run.1 ++ coll.2.1,
         artifacts := coll.1 },
        startEvs ++ run.2.2 ++ coll.2.2 ++ [Event.removeDir workDir])
    else
      ({ id := env.resultId, status := "failed",
         output := cloneFailMsg co.stderr, artifacts := [] },
        startEvs ++ [Event.removeDir workDir])
  | Except.error e =>
    ({ id := env.resultId, status := "failed",
       output := cloneErrMsg e, artifacts := [] },
      startEvs ++ [Event.removeDir workDir])

/-- The job status as determined by the clone and command stages alone
(the artifact stage never writes `status` in the source). -/
def overallStatus (env : Env) (job : Job) : String :=
  match env.cloneResult with
  | Except.ok co =>
    if co.success then
      if (runCommands env job.commands 0).2.1 then "success" else "failed"
    else "failed"
  | Except.error _ => "failed"

/-- Log contribution of the command at position `i` when the loop reaches
it: echo line plus both captured streams if it launched, the explicit
error line otherwise. -/
def cmdStepLog (env : Env) (i : Nat) (cmd : String) : String :=
  match env.cmdResult i with
  | Except.ok o => cmdEchoLine cmd ++ o.stdout ++ o.stderr
  | Except.error e => launchErrLine e

/-- True of workspace-creation events. -/
def isCreate : Event → Bool
  | Event.createDir _ => true
  | _ => false

/-- True of workspace-removal events. -/
def isRemove : Event → Bool
  | Event.removeDir _ => true
  | _ => false

lemma runCommands_trace_shape (env : Env) :
    ∀ (cmds : List String) (i : Nat) (ev : Event),
      ev ∈ (runCommands env cmds i).2.2 → ∃ j c, ev = Event.runCmd j c := by
  intro cmds
  induction cmds with
  | nil => intro i ev h; simp [runCommands] at h
  | cons cmd rest ih =>
    intro i ev h
    simp only [runCommands] at h
    rcases hc : env.cmdResult i with e | out <;> rw [hc] at h
    · simp at h; exact ⟨i, cmd, h⟩
    · by_cases hs : out.success
      · simp [hs] at h
        rcases h with h | h
        · exact ⟨i, cmd, h⟩
        · exact ih (i + 1) ev h
      · simp [hs] at h; exact ⟨i, cmd, h⟩

lemma collectArtifacts_trace (env : Env) (wd : String) :
    ∀ outs : List JobOutput,
      (collectArtifacts env wd outs).2.2 =
        outs.map (fun o => Event.readFile (resolvePath wd o.path)) := by
  intro outs
  induction outs with
  | nil => simp [collectArtifacts]
  | cons spec rest ih =>
    simp only [collectArtifacts, List.map_cons]
    rcases h : env.readFile (resolvePath wd spec.path) with e | c <;> simp [h, ih]

lemma collectArtifacts_artifacts (env : Env) (wd : String) :
    ∀ outs : List JobOutput,
      (collectArtifacts env wd outs).1 =
        outs.filterMap (fun s =>
          match env.readFile (resolvePath wd s.path) with
          | Except.ok c => some { name := s.name, content := c }
          | Except.error _ => none) := by
  intro outs
  induction outs with
  | nil => simp [collectArtifacts]
  | cons spec rest ih =>
    simp only [collectArtifacts, List.filterMap_cons]
    rcases h : env.readFile (resolvePath wd spec.path) with e | c <;> simp [h, ih]

lemma collectArtifacts_log (env : Env) (wd : String) :
    ∀ outs : List JobOutput,
      (collectArtifacts env wd outs).2.1 =
        List.foldr (fun a b => a ++ b) ""
          (outs.filterMap (fun s =>
            match env.readFile (resolvePath wd s.path) with
            | Except.ok _ => none
            | Except.error e => some (readErrLine s.name e))) := by
  intro outs
  induction outs with
  | nil => simp [collectArtifacts]
  | cons spec rest ih =>
    simp only [collectArtifacts, List.filterMap_cons]
    rcases h : env.readFile (resolvePath wd spec.path) with e | c <;> simp [h, ih]

lemma runCommands_filter_isCreate (env : Env) (cmds : List String) (i : Nat) :
    List.filter isCreate (runCommands env cmds i).2.2 = [] := by
  rw [List.filter_eq_nil_iff]
  intro ev hev
  obtain ⟨j, c, rfl⟩ := runCommands_trace_shape env cmds i ev hev
  simp [isCreate]

lemma runCommands_filter_isRemove (env : Env) (cmds : List String) (i : Nat) :
    List.filter isRemove (runCommands env cmds i).2.2 = [] := by
  rw [List.filter_eq_nil_iff]
  intro ev hev
  obtain ⟨j, c, rfl⟩ := runCommands_trace_shape env cmds i ev hev
  simp [isRemove]

lemma collectArtifacts_filter_isCreate (env : Env) (wd : String) (outs : List JobOutput) :
    List.filter isCreate (collectArtifacts env wd outs).2.2 = [] := by
  rw [List.filter_eq_nil_iff, collectArtifacts_trace]
  intro ev hev
  simp only [List.mem_map] at hev
  obtain ⟨o, _, rfl⟩ := hev
  simp [isCreate]

lemma collectArtifacts_filter_isRemove (env : Env) (wd : String) (outs : List JobOutput) :
    List.filter isRemove (collectArtifacts env wd outs).2.2 = [] := by
  rw [List.filter_eq_nil_iff, collectArtifacts_trace]
  intro ev hev
  simp only [List.mem_map] at hev
  obtain ⟨o, _, rfl⟩ := hev
  simp [isRemove]

/-- Claim C4: every job execution creates exactly one workspace directory
(`work_` followed by the fresh token) at its start, and that same
workspace is removed exactly once, as the last external action before the
result is produced, on every non-aborting path. -/
theorem c4_workspace_lifecycle (env : Env) (job : Job) :
    List.filter isCreate (execute_job env job).2 = [Event.createDir (workDirOf env)] ∧
    List.filter isRemove (execute_job env job).2 = [Event.removeDir (workDirOf env)] ∧
    (execute_job env job).2.getLast? = some (Event.removeDir (workDirOf env)) := by
  rcases hc : env.cloneResult with e | co
  · simp [execute_job, hc, isCreate, isRemove, List.filter, List.getLast?_append]
  · by_cases hs : co.success
    · simp [execute_job, hc, hs, List.filter_append, List.getLast?_append,
        runCommands_filter_isCreate, runCommands_filter_isRemove,
        collectArtifacts_filter_isCreate, collectArtifacts_filter_isRemove,
        isCreate, isRemove, List.filter, List.getLast?_cons]
    · simp [execute_job, hc, hs, isCreate, isRemove, List.filter, List.getLast?_append]

/-- Claim C5: for every declared output whose file read fails, the
collector omits that artifact and appends a descriptive error line to the
log, while successfully read outputs appear as artifacts in declaration
order; and the overall job status is determined by the clone and command
stages alone, so artifact-read failures leave it unchanged. -/
theorem c5_artifact_failures_nonfatal (env : Env) (wd : String) (outs : List JobOutput) :
    (collectArtifacts env wd outs).1 =
      outs.filterMap (fun s =>
        match env.readFile (resolvePath wd s.path) with
        | Except.ok c => some { name := s.name, content := c }
        | Except.error _ => none) ∧
    (collectArtifacts env wd outs).2.1 =
      List.foldr (fun a b => a ++ b) ""
        (outs.filterMap (fun s =>
          match env.readFile (resolvePath wd s.path) with
          | Except.ok _ => none
          | Except.error e => some (readErrLine s.name e))) ∧
    ∀ job : Job, (execute_job env job).1.status = overallStatus env job := by
  refine ⟨collectArtifacts_artifacts env wd outs, collectArtifacts_log env wd outs, ?_⟩
  intro job
  rcases hc : env.cloneResult with e | co
  · simp [execute_job, overallStatus, hc]
  · by_cases hs : co.success
    · simp [execute_job, overallStatus, hc, hs]
    · simp [execute_job, overallStatus, hc, hs]

lemma str_empty_append (s : String) : "" ++ s = s := rfl

/-- Claim C3: when the clone fails (non-zero exit or invocation error),
the result status is `failed`, `artifacts` is empty, the output is
exactly the corresponding fetch diagnostic message, and no command is run
and no output file is read. -/
theorem c3_fetch_failure (env : Env) (job : Job)
    (h : (∃ co, env.cloneResult = Except.ok co ∧ co.success = false) ∨
      (∃ e, env.cloneResult = Except.error e)) :
    (execute_job env job).1.status = "failed" ∧
    (execute_job env job).1.artifacts = [] ∧
    (∀ co, env.cloneResult = Except.ok co →
      (execute_job env job).1.output = cloneFailMsg co.stderr) ∧
    (∀ e, env.cloneResult = Except.error e →
      (execute_job env job).1.output = cloneErrMsg e) ∧
    (∀ i c, Event.runCmd i c ∉ (execute_job env job).2) ∧
    (∀ p, Event.readFile p ∉ (execute_job env job).2) := by
  rcases h with ⟨co, hc, hcs⟩ | ⟨e, hc⟩
  · refine ⟨?_, ?_, ?_, ?_, ?_, ?_⟩
    · simp [execute_job, hc, hcs]
    · simp [execute_job, hc, hcs]
    · intro co' hco'
      rw [hc] at hco'
      cases hco'
      simp [execute_job, hc, hcs]
    · intro e' he'
      rw [hc] at he'
      cases he'
    · intro i c
      simp [execute_job, hc, hcs]
    · intro p
      simp [execute_job, hc, hcs]
  · refine ⟨?_, ?_, ?_, ?_, ?_, ?_⟩
    · simp [execute_job, hc]
    · simp [execute_job, hc]
    · intro co' hco'
      rw [hc] at hco'
      cases hco'
    · intro e' he'
      rw [hc] at he'
      cases he'
      simp [execute_job, hc]
    · intro i c
      simp [execute_job, hc]
    · intro p
      simp [execute_job, hc]

/-- Claim C6: a job with an empty `commands` list whose clone succeeds
gets status `success` from the command stage, which contributes nothing
to the log: the whole result output is the artifact stage's log alone. -/
theorem c6_empty_commands (env : Env) (job : Job) (co : ProcOutput)
    (hcmds : job.commands = []) (hc : env.cloneResult = Except.ok co)
    (hs : co.success = true) :
    runCommands env job.commands 0 = ("", true, []) ∧
    (execute_job env job).1.status = "success" ∧
    (execute_job env job).1.output =
      (collectArtifacts env (workDirOf env) job.outputs).2.1 := by
  refine ⟨by rw [hcmds]; rfl, ?_, ?_⟩
  · simp [execute_job, hc, hs, hcmds, runCommands]
  · simp [execute_job, hc, hs, hcmds, runCommands, str_empty_append]

/-- Claim C7: for every command the loop reaches, a launched command
appends exactly its echo line, then its whole captured stdout, then its
whole captured stderr — a non-zero exit appends nothing further and just
stops — while a launch failure appends exactly the explicit error
message line. -/
theorem c7_per_command_log (env : Env) (i : Nat) (cmd : String) (rest : List String) :
    (∀ out : ProcOutput, env.cmdResult i = Except.ok out →
      runCommands env (cmd :: rest) i =
        (if out.success then
          (cmdEchoLine cmd ++ out.stdout ++ out.stderr ++ (runCommands env rest (i + 1)).1,
            (runCommands env rest (i + 1)).2.1,
            Event.runCmd i cmd :: (runCommands env rest (i + 1)).2.2)
        else
          (cmdEchoLine cmd ++ out.stdout ++ out.stderr, false, [Event.runCmd i cmd]))) ∧
    (∀ e : String, env.cmdResult i = Except.error e →
      runCommands env (cmd :: rest) i = (launchErrLine e, false, [Event.runCmd i cmd])) := by
  constructor
  · intro out h
    by_cases hs : out.success <;> simp [runCommands, h, hs]
  · intro e h
    simp [runCommands, h]

/-- Claim C9: two jobs that agree on `repository`, `branch`, `commands`
and `outputs` — i.e. differ at most in `name` and `inputs` — produce,
under the same external outcomes, identical results and identical traces;
in particular `Job.name` never influences the `JobResult`. -/
theorem c9_name_inputs_noninterference (env : Env) (j1 j2 : Job)
    (hr : j1.repository = j2.repository) (hb : j1.branch = j2.branch)
    (hc : j1.commands = j2.commands) (ho : j1.outputs = j2.outputs) :
    execute_job env j1 = execute_job env j2 := by
  simp only [execute_job, hr, hb, hc, ho]

/-- Claim C2: fail-fast. With commands `[A, B, C]`, a successful clone,
`A` succeeding and `B` failing (non-zero exit or launch failure), the
status is `failed`, `C` is never executed, and the result output is
exactly `A`'s contribution, then `B`'s, then the artifact stage's log —
nothing from `C`. -/
theorem c2_fail_fast (env : Env) (job : Job) (A B C : String)
    (outA co : ProcOutput)
    (hcmds : job.commands = [A, B, C])
    (hclone : env.cloneResult = Except.ok co) (hcos : co.success = true)
    (h0 : env.cmdResult 0 = Except.ok outA) (h0s : outA.success = true)
    (hB : (∃ o, env.cmdResult 1 = Except.ok o ∧ o.success = false) ∨
      (∃ e, env.cmdResult 1 = Except.error e)) :
    (execute_job env job).1.status = "failed" ∧
    Event.runCmd 2 C ∉ (execute_job env job).2 ∧
    (execute_job env job).1.output =
      cmdStepLog env 0 A ++ cmdStepLog env 1 B ++
        (collectArtifacts env (workDirOf env) job.outputs).2.1 := by
  rcases hB with ⟨oB, h1, h1s⟩ | ⟨e, h1⟩
  · refine ⟨?_, ?_, ?_⟩ <;>
      simp [execute_job, hclone, hcos, hcmds, runCommands, h0, h0s, h1, h1s,
        cmdStepLog, collectArtifacts_trace, String.append_assoc, List.mem_append]
  · refine ⟨?_, ?_, ?_⟩ <;>
      simp [execute_job, hclone, hcos, hcmds, runCommands, h0, h0s, h1,
        cmdStepLog, collectArtifacts_trace, String.append_assoc, List.mem_append]

/-- Claim C1 (amended): whenever the clone succeeds, the artifact stage
runs regardless of the command stage's outcome — every declared output
file is read and the result's artifacts are exactly what the collector
returns, even when the command sequence ended with status `failed`. -/
theorem c1_amended_collection_after_command_failure (env : Env) (job : Job)
    (co : ProcOutput) (hc : env.cloneResult = Except.ok co) (hs : co.success = true) :
    (execute_job env job).1.artifacts =
      (collectArtifacts env (workDirOf env) job.outputs).1 ∧
    ∀ s ∈ job.outputs,
      Event.readFile (resolvePath (workDirOf env) s.path) ∈ (execute_job env job).2 := by
  constructor
  · simp [execute_job, hc, hs]
  · intro s hsmem
    have hmem : Event.readFile (resolvePath (workDirOf env) s.path) ∈
        (collectArtifacts env (workDirOf env) job.outputs).2.2 := by
      rw [collectArtifacts_trace]
      exact List.mem_map.mpr ⟨s, hsmem, rfl⟩
    simp only [execute_job, hc, hs, if_true, List.mem_append, List.mem_cons]
    tauto

/-- Claim C8: the scenario job ( `commands = []`, one declared output
`readme ↦ README.md` ) with a successful clone and `README.md` reading as
"hello" yields status `success` and exactly one artifact
`{name := readme, content := hello}`. -/
theorem c8_readme_scenario (env : Env) (job : Job) (co : ProcOutput)
    (hc : env.cloneResult = Except.ok co) (hs : co.success = true)
    (hcmds : job.commands = [])
    (houts : job.outputs = [{ name := "readme", path := "README.md" }])
    (hread : env.readFile (resolvePath (workDirOf env) "README.md") = Except.ok "hello") :
    (execute_job env job).1.status = "success" ∧
    (execute_job env job).1.artifacts = [{ name := "readme", content := "hello" }] := by
  constructor
  · simp [execute_job, hc, hs, hcmds, runCommands]
  · simp [execute_job, hc, hs, hcmds, houts, runCommands, collectArtifacts, hread]

/-- Claim C10: a declared output path is resolved by plain string
concatenation (workspace ++ "/" ++ path) with no normalization or
containment check; the collector reads exactly the concatenated paths,
and any readable file at such a path — including one reached through
parent-directory components — is included as an artifact. -/
theorem c10_path_concatenation (env : Env) (wd : String) (outs : List JobOutput)
    (s : JobOutput) (c : String) (hs : s ∈ outs)
    (h : env.readFile (resolvePath wd s.path) = Except.ok c) :
    resolvePath wd s.path = wd ++ "/" ++ s.path ∧
    (collectArtifacts env wd outs).2.2 =
      outs.map (fun o => Event.readFile (resolvePath wd o.path)) ∧
    Event.readFile (resolvePath wd s.path) ∈ (collectArtifacts env wd outs).2.2 ∧
    ({ name := s.name, content := c } : JobArtifact) ∈ (collectArtifacts env wd outs).1 := by
  refine ⟨rfl, collectArtifacts_trace env wd outs, ?_, ?_⟩
  · rw [collectArtifacts_trace]
    exact List.mem_map.mpr ⟨s, hs, rfl⟩
  · rw [collectArtifacts_artifacts]
    exact List.mem_filterMap.mpr ⟨s, hs, by rw [h]⟩

/-- Environment with a successful clone, command 0 succeeding and every
later command exiting non-zero; all file reads fail. -/
def envA : Env :=
  { workDirToken := "w", resultId := "rid",
    cloneResult := Except.ok { success := true, stdout := "", stderr := "" },
    cmdResult := fun i =>
      if i = 0 then Except.ok { success := true, stdout := "A-out\n", stderr := "" }
      else Except.ok { success := false, stdout := "B-out\n", stderr := "B-err\n" },
    readFile := fun _ => Except.error "missing" }

/-- Environment whose clone exits non-zero with a diagnostic on stderr. -/
def envF : Env :=
  { workDirToken := "w", resultId := "rid",
    cloneResult := Except.ok { success := false, stdout := "", stderr := "fatal: not found\n" },
    cmdResult := fun _ => Except.error "unused",
    readFile := fun _ => Except.error "unused" }

/-- Environment with a successful clone and exactly one readable file,
`work_w/README.md`, containing "hello". -/
def envR : Env :=
  { workDirToken := "w", resultId := "rid",
    cloneResult := Except.ok { success := true, stdout := "", stderr := "" },
    cmdResult := fun _ => Except.error "unused",
    readFile := fun p =>
      if p = "work_w/README.md" then Except.ok "hello" else Except.error "missing" }

/-- Environment with a successful clone, a failing sole command, and one
readable file `work_w/out.txt`. -/
def envX : Env :=
  { workDirToken := "w", resultId := "rid",
    cloneResult := Except.ok { success := true, stdout := "", stderr := "" },
    cmdResult := fun _ => Except.ok { success := false, stdout := "", stderr := "make: error\n" },
    readFile := fun p =>
      if p = "work_w/out.txt" then Except.ok "data" else Except.error "missing" }

/-- Environment with a successful clone and one readable file at the
workspace-escaping path `work_w/../x`. -/
def envT : Env :=
  { workDirToken := "w", resultId := "rid",
    cloneResult := Except.ok { success := true, stdout := "", stderr := "" },
    cmdResult := fun _ => Except.error "unused",
    readFile := fun p =>
      if p = "work_w/../x" then Except.ok "secret" else Except.error "missing" }

/-- Job with one failing command and one declared output. -/
def jobX : Job :=
  { name := "j", repository := "repo", branch := "main",
    commands := ["make"], inputs := [],
    outputs := [{ name := "o", path := "out.txt" }] }

/-- Job with three commands and no declared outputs. -/
def jobABC : Job :=
  { name := "j", repository := "repo", branch := "main",
    commands := ["a", "b", "c"], inputs := [], outputs := [] }

/-- Job with no commands and no declared outputs. -/
def jobE : Job :=
  { name := "j", repository := "repo", branch := "main",
    commands := [], inputs := [], outputs := [] }

/-- The scenario job of claim C8. -/
def jobR : Job :=
  { name := "j", repository := "repo", branch := "main",
    commands := [], inputs := [],
    outputs := [{ name := "readme", path := "README.md" }] }

/-- Claim C1 counterexample: with a successful clone, one failing command
and a readable declared output, the result has status `failed` and yet a
non-empty artifact list, and the declared output file was read —
contradicting the claim that a failed command sequence yields no reads
and empty artifacts. -/
theorem c1_counterexample :
    envX.cloneResult = Except.ok { success := true, stdout := "", stderr := "" } ∧
    (execute_job envX jobX).1.status = "failed" ∧
    (execute_job envX jobX).1.artifacts = [{ name := "o", content := "data" }] ∧
    Event.readFile "work_w/out.txt" ∈ (execute_job envX jobX).2 := by
  refine ⟨rfl, rfl, rfl, ?_⟩
  simp [execute_job, envX, jobX, runCommands, collectArtifacts, workDirOf, resolvePath]

theorem c1_witness :
    (execute_job envX jobX).1.artifacts =
      (collectArtifacts envX (workDirOf envX) jobX.outputs).1 ∧
    Event.readFile (resolvePath (workDirOf envX) "out.txt") ∈ (execute_job envX jobX).2 := by
  have h := c1_amended_collection_after_command_failure envX jobX
    { success := true, stdout := "", stderr := "" } rfl rfl
  exact ⟨h.1, h.2 { name := "o", path := "out.txt" } (by simp [jobX])⟩

theorem c2_witness :
    (execute_job envA jobABC).1.status = "failed" ∧
    Event.runCmd 2 "c" ∉ (execute_job envA jobABC).2 ∧
    (execute_job envA jobABC).1.output =
      cmdStepLog envA 0 "a" ++ cmdStepLog envA 1 "b" ++
        (collectArtifacts envA (workDirOf envA) jobABC.outputs).2.1 :=
  c2_fail_fast envA jobABC "a" "b" "c"
    { success := true, stdout := "A-out\n", stderr := "" }
    { success := true, stdout := "", stderr := "" }
    rfl rfl rfl rfl rfl
    (Or.inl ⟨{ success := false, stdout := "B-out\n", stderr := "B-err\n" }, rfl, rfl⟩)

theorem c3_witness :
    (execute_job envF jobE).1.status = "failed" ∧
    (execute_job envF jobE).1.artifacts = [] ∧
    (execute_job envF jobE).1.output = cloneFailMsg "fatal: not found\n" := by
  have h := c3_fetch_failure envF jobE
    (Or.inl ⟨{ success := false, stdout := "", stderr := "fatal: not found\n" }, rfl, rfl⟩)
  exact ⟨h.1, h.2.1, h.2.2.1 { success := false, stdout := "", stderr := "fatal: not found\n" } rfl⟩

theorem c6_witness :
    runCommands envA jobE.commands 0 = ("", true, []) ∧
    (execute_job envA jobE).1.status = "success" ∧
    (execute_job envA jobE).1.output =
      (collectArtifacts envA (workDirOf envA) jobE.outputs).2.1 :=
  c6_empty_commands envA jobE { success := true, stdout := "", stderr := "" } rfl rfl rfl

theorem c7_witness :
    runCommands envA ["a"] 0 =
      (cmdEchoLine "a" ++ "A-out\n" ++ "" ++ (runCommands envA [] 1).1,
        (runCommands envA [] 1).2.1,
        Event.runCmd 0 "a" :: (runCommands envA [] 1).2.2) := by
  have h := (c7_per_command_log envA 0 "a" []).1
    { success := true, stdout := "A-out\n", stderr := "" } rfl
  simpa using h

theorem c8_witness :
    (execute_job envR jobR).1.status = "success" ∧
    (execute_job envR jobR).1.artifacts = [{ name := "readme", content := "hello" }] :=
  c8_readme_scenario envR jobR { success := true, stdout := "", stderr := "" }
    rfl rfl rfl rfl rfl

/-- Job differing from `jobN2` only in `name` and `inputs`. -/
def jobN1 : Job :=
  { name := "first", repository := "repo", branch := "main",
    commands := ["x"], inputs := [{ name := "k", value := "v" }],
    outputs := [{ name := "o", path := "p" }] }

/-- Job differing from `jobN1` only in `name` and `inputs`. -/
def jobN2 : Job :=
  { name := "second", repository := "repo", branch := "main",
    commands := ["x"], inputs := [],
    outputs := [{ name := "o", path := "p" }] }

theorem c9_witness : execute_job envA jobN1 = execute_job envA jobN2 :=
  c9_name_inputs_noninterference envA jobN1 jobN2 rfl rfl rfl rfl

theorem c10_witness :
    resolvePath "work_w" "../x" = "work_w" ++ "/" ++ "../x" ∧
    (collectArtifacts envT "work_w" [{ name := "leak", path := "../x" }]).2.2 =
      [({ name := "leak", path := "../x" } : JobOutput)].map
        (fun o => Event.readFile (resolvePath "work_w" o.path)) ∧
    Event.readFile (resolvePath "work_w" "../x") ∈
      (collectArtifacts envT "work_w" [{ name := "leak", path := "../x" }]).2.2 ∧
    ({ name := "leak", content := "secret" } : JobArtifact) ∈
      (collectArtifacts envT "work_w" [{ name := "leak", path := "../x" }]).1 :=
  c10_path_concatenation envT "work_w" [{ name := "leak", path := "../x" }]
    { name := "leak", path := "../x" } "secret" (List.mem_singleton.mpr rfl) rfl

end ViaductWorker
